import Mathlib

/-!
Verification development for the api_livekit repository.

Shallow embedding of the request-validation, document-persistence and
session-orchestration logic, translated from the Python source:
  - src/api/models/api_schemas.py   (pydantic request models and validators)
  - src/api/routes/assistant.py, tool.py, call.py, sip.py  (HTTP handlers)
  - src/services/livekit/livekit_svc.py  (room naming, transcripts)
  - src/core/agents/session.py, tool_builder.py  (worker entrypoint, executors)

Mongo documents are modelled as Lean structures, each collection as a list of
documents; a beanie find_one is List.find?, a document save is a map that
replaces the document with the matching unique id.  Optional[str] fields are
Option String, and Python truthiness of such a field (None and "" are falsy)
is the function truthy below.  Timestamp and audit fields (created_at,
updated_at, updated_by) are omitted: no claim mentions them.
-/

namespace ApiLivekit

/-- Python truthiness of an Optional[str] value: None and "" are falsy. -/
def truthy : Option String → Bool
  | none => false
  | some s => !s.isEmpty

/-- Whether an Except result is a success (pydantic validation passed). -/
def isOkB {ε α : Type} : Except ε α → Bool
  | .ok _ => true
  | .error _ => false

/-- TTS provider discriminator, Literal["cartesia", "sarvam"] in api_schemas.py. -/
inductive TTSModel where
  | cartesia
  | sarvam
deriving DecidableEq, Repr

/-- Storage form of the discriminator (Assistant.assistant_tts_model is str). -/
def TTSModel.toStr : TTSModel → String
  | .cartesia => "cartesia"
  | .sarvam => "sarvam"

/-- Request body of POST /assistant/create (api_schemas.CreateAssistant),
restricted to the fields the claims are about. -/
structure CreateAssistant where
  assistant_name : String
  assistant_tts_model : TTSModel
  assistant_tts_voice_id : Option String := none
  assistant_tts_speaker : Option String := none
deriving DecidableEq, Repr

/-- Model validator CreateAssistant.validate_tts_fields (api_schemas.py lines
52-66), translated branch for branch; raising ValueError is Except.error. -/
def CreateAssistant.validate_tts_fields (r : CreateAssistant) :
    Except String CreateAssistant :=
  match r.assistant_tts_model with
  | .cartesia =>
      if !truthy r.assistant_tts_voice_id then
        .error "assistant_tts_voice_id is required for cartesia."
      else if truthy r.assistant_tts_speaker then
        .error "assistant_tts_speaker is only allowed for sarvam."
      else .ok r
  | .sarvam =>
      if !truthy r.assistant_tts_speaker then
        .error "assistant_tts_speaker is required for sarvam."
      else if truthy r.assistant_tts_voice_id then
        .error "assistant_tts_voice_id is not allowed for sarvam."
      else .ok r

/-- Request body of PATCH /assistant/update (api_schemas.UpdateAssistant).
Every field is optional; none means the field was not supplied, so
model_dump(exclude_unset=True) drops it.  Explicit JSON nulls are not
modelled: a supplied field carries a value. -/
structure UpdateAssistant where
  assistant_name : Option String := none
  assistant_tts_model : Option TTSModel := none
  assistant_tts_voice_id : Option String := none
  assistant_tts_speaker : Option String := none
deriving DecidableEq, Repr

/-- Model validator UpdateAssistant.validate_tts_fields (api_schemas.py lines
92-111).  When the provider is not supplied, python's
self.assistant_tts_model == "cartesia" comparisons are both false and only
the final else branch (both supplied is an error) applies. -/
def UpdateAssistant.validate_tts_fields (r : UpdateAssistant) :
    Except String UpdateAssistant :=
  match r.assistant_tts_model with
  | some .cartesia =>
      if !truthy r.assistant_tts_voice_id then
        .error "assistant_tts_voice_id is required for cartesia."
      else if truthy r.assistant_tts_speaker then
        .error "assistant_tts_speaker is only allowed for sarvam."
      else .ok r
  | some .sarvam =>
      if !truthy r.assistant_tts_speaker then
        .error "assistant_tts_speaker is required for sarvam."
      else if truthy r.assistant_tts_voice_id then
        .error "assistant_tts_voice_id is not allowed for sarvam."
      else .ok r
  | none =>
      if truthy r.assistant_tts_speaker && truthy r.assistant_tts_voice_id then
        .error "Provide only one of assistant_tts_speaker or assistant_tts_voice_id."
      else .ok r

/-- Stored assistant document (db_schemas.Assistant), restricted to the fields
the claims are about.  assistant_tts_model is stored as a plain string. -/
structure Assistant where
  assistant_id : String
  assistant_name : String
  assistant_tts_model : String
  assistant_tts_voice_id : Option String := none
  assistant_tts_speaker : Option String := none
  assistant_created_by_email : String
  assistant_is_active : Bool := true
  tool_ids : List String := []
deriving DecidableEq, Repr

/-- Document built by create_assistant (assistant.py lines 26-35): the request
fields are copied into a fresh document owned by the caller. -/
def recordOfCreate (aid user : String) (r : CreateAssistant) : Assistant :=
  { assistant_id := aid
    assistant_name := r.assistant_name
    assistant_tts_model := r.assistant_tts_model.toStr
    assistant_tts_voice_id := r.assistant_tts_voice_id
    assistant_tts_speaker := r.assistant_tts_speaker
    assistant_created_by_email := user
    assistant_is_active := true
    tool_ids := [] }

/-- Mongo update with Set of the supplied fields only, as performed by
update_assistant (assistant.py lines 58-67): unsupplied fields keep their
stored value. -/
def applyUpdate (a : Assistant) (r : UpdateAssistant) : Assistant :=
  { a with
    assistant_name := r.assistant_name.getD a.assistant_name
    assistant_tts_model := (r.assistant_tts_model.map TTSModel.toStr).getD a.assistant_tts_model
    assistant_tts_voice_id := match r.assistant_tts_voice_id with
      | some v => some v
      | none => a.assistant_tts_voice_id
    assistant_tts_speaker := match r.assistant_tts_speaker with
      | some v => some v
      | none => a.assistant_tts_speaker }

/-- Invariant claimed by the spec for stored assistants: exactly one of
voice_id and speaker is set, and which one is determined by the provider. -/
def exactlyOneTts (a : Assistant) : Prop :=
  (a.assistant_tts_model = "cartesia" →
      truthy a.assistant_tts_voice_id = true ∧ truthy a.assistant_tts_speaker = false) ∧
  (a.assistant_tts_model = "sarvam" →
      truthy a.assistant_tts_speaker = true ∧ truthy a.assistant_tts_voice_id = false)

/-- Concrete creation request used to exhibit a reachable record violating
the exactly-one invariant: a valid cartesia assistant. -/
def c2CreateReq : CreateAssistant :=
  { assistant_name := "a"
    assistant_tts_model := .cartesia
    assistant_tts_voice_id := some "v1"
    assistant_tts_speaker := none }

/-- Concrete update request supplying only the speaker field; the update
validator accepts it because the provider field is not supplied. -/
def c2UpdateReq : UpdateAssistant :=
  { assistant_tts_speaker := some "s1" }

/-- Claim C7: a creation request validates successfully exactly when the
provider-selected field is present (truthy) and the other absent: voice_id
for cartesia, speaker for sarvam.  Validation happens in the pydantic model,
before the route handler can touch storage. -/
theorem create_validate_tts_iff (r : CreateAssistant) :
    isOkB r.validate_tts_fields = true ↔
      ((r.assistant_tts_model = .cartesia ∧
          truthy r.assistant_tts_voice_id = true ∧
          truthy r.assistant_tts_speaker = false) ∨
       (r.assistant_tts_model = .sarvam ∧
          truthy r.assistant_tts_speaker = true ∧
          truthy r.assistant_tts_voice_id = false)) := by
  cases hm : r.assistant_tts_model <;>
    simp [CreateAssistant.validate_tts_fields, hm, isOkB] <;>
    cases hv : truthy r.assistant_tts_voice_id <;>
    cases hs : truthy r.assistant_tts_speaker <;>
    simp [isOkB]

/-- Claim C2, counterexample: the record created by the valid cartesia request
c2CreateReq and then patched by the valid update request c2UpdateReq (which
supplies only the speaker) ends up with provider cartesia and BOTH voice_id
and speaker set, so the claimed exactly-one invariant fails on a record
reachable through the public API. -/
theorem update_can_break_tts_invariant :
    isOkB c2CreateReq.validate_tts_fields = true ∧
    isOkB c2UpdateReq.validate_tts_fields = true ∧
    (applyUpdate (recordOfCreate "id1" "u@example.com" c2CreateReq) c2UpdateReq).assistant_tts_model
        = "cartesia" ∧
    truthy (applyUpdate (recordOfCreate "id1" "u@example.com" c2CreateReq) c2UpdateReq).assistant_tts_voice_id
        = true ∧
    truthy (applyUpdate (recordOfCreate "id1" "u@example.com" c2CreateReq) c2UpdateReq).assistant_tts_speaker
        = true :=
  ⟨rfl, rfl, rfl, rfl, rfl⟩

/-- Claim C2, amended: creation establishes the exactly-one invariant, and
each update request is checked only over the fields it supplies: when the
provider is supplied the matching field must be the only truthy one, and
when it is not supplied the request may not carry both fields truthy.  The
stored invariant is not preserved across updates (see the counterexample). -/
theorem tts_invariant_at_create_and_per_request_update_checks :
    (∀ (aid user : String) (r : CreateAssistant),
        isOkB r.validate_tts_fields = true →
        exactlyOneTts (recordOfCreate aid user r)) ∧
    (∀ u : UpdateAssistant, isOkB u.validate_tts_fields = true →
        (u.assistant_tts_model = some .cartesia →
            truthy u.assistant_tts_voice_id = true ∧ truthy u.assistant_tts_speaker = false) ∧
        (u.assistant_tts_model = some .sarvam →
            truthy u.assistant_tts_speaker = true ∧ truthy u.assistant_tts_voice_id = false) ∧
        (u.assistant_tts_model = none →
            ¬(truthy u.assistant_tts_speaker = true ∧ truthy u.assistant_tts_voice_id = true))) := by
  constructor
  · intro aid user r h
    rw [create_validate_tts_iff] at h
    rcases h with ⟨hm, hv, hs⟩ | ⟨hm, hs, hv⟩ <;>
      constructor <;> intro hstr <;>
      simp_all [recordOfCreate, TTSModel.toStr, exactlyOneTts]
  · intro u h
    cases hm : u.assistant_tts_model with
    | none =>
        simp only [UpdateAssistant.validate_tts_fields, hm] at h
        refine ⟨by simp, by simp, fun _ => ?_⟩
        rintro ⟨hs, hv⟩
        simp [hs, hv, isOkB] at h
    | some m =>
        cases m <;>
          simp only [UpdateAssistant.validate_tts_fields, hm] at h <;>
          refine ⟨?_, ?_, by simp [hm]⟩ <;> intro hm2 <;>
          cases hv : truthy u.assistant_tts_voice_id <;>
          cases hs : truthy u.assistant_tts_speaker <;>
          simp_all [isOkB]

/-- Claim C2, witness for the amended theorem at concrete inputs. -/
theorem tts_invariant_witness :
    exactlyOneTts (recordOfCreate "id1" "u@example.com" c2CreateReq) :=
  tts_invariant_at_create_and_per_request_update_checks.1 "id1" "u@example.com" c2CreateReq rfl

/-- Stored tool document (db_schemas.Tool), restricted to the fields the
claims are about. -/
structure Tool where
  tool_id : String
  tool_name : String
  tool_description : String
  tool_execution_type : String
  tool_created_by_email : String
  tool_is_active : Bool := true
deriving DecidableEq, Repr

/-- Stored outbound trunk document (db_schemas.OutboundSIP), restricted to
the fields the claims are about. -/
structure OutboundSIP where
  trunk_id : String
  trunk_name : String
  trunk_created_by_email : String
  trunk_is_active : Bool := true
deriving DecidableEq, Repr

/-- Document store: one list per Mongo collection used by the claims. -/
structure DB where
  assistants : List Assistant
  tools : List Tool
  trunks : List OutboundSIP
deriving DecidableEq, Repr

/-- HTTP error raised by a route handler (fastapi HTTPException). -/
inductive HTTPError where
  | notFound (detail : String)
  | badRequest (detail : String)
deriving DecidableEq, Repr

/-- Beanie find_one for an assistant by id, owner and active flag, as used by
attach_tools and detach_tools (tool.py lines 198-202 and 248-252). -/
def findAssistant (db : DB) (user aid : String) : Option Assistant :=
  db.assistants.find? fun a =>
    a.assistant_id == aid &&
    a.assistant_created_by_email == user &&
    a.assistant_is_active

/-- Beanie find_one for a tool by id, owner and active flag, as used by
delete_tool (tool.py lines 154-158). -/
def findTool (db : DB) (user tid : String) : Option Tool :=
  db.tools.find? fun t =>
    t.tool_id == tid &&
    t.tool_created_by_email == user &&
    t.tool_is_active

/-- Document save: replace the assistant document with the same unique
assistant_id (assistant_id carries a unique index). -/
def saveAssistant (db : DB) (a : Assistant) : DB :=
  { db with assistants := db.assistants.map fun x =>
      if x.assistant_id = a.assistant_id then a else x }

/-- Document save: replace the tool document with the same unique tool_id. -/
def saveTool (db : DB) (t : Tool) : DB :=
  { db with tools := db.tools.map fun x =>
      if x.tool_id = t.tool_id then t else x }

/-- Set of tool ids that resolve to an active tool owned by the caller, as
computed by attach_tools (tool.py lines 207-212). -/
def valid_tool_ids (db : DB) (user : String) : List String :=
  (db.tools.filter fun t => t.tool_created_by_email == user && t.tool_is_active).map
    (fun t => t.tool_id)

/-- Handler of POST /tool/attach (tool.py lines 189-237): look up the
assistant, reject if any requested id is not a valid tool id, otherwise
append the requested ids not already attached and save.  The returned pair
is the post-state of the store and the HTTP outcome (the response carries
the new tool_ids list). -/
def attach_tools (db : DB) (user aid : String) (req_tool_ids : List String) :
    DB × Except HTTPError (List String) :=
  match findAssistant db user aid with
  | none => (db, .error (.notFound "Assistant not found"))
  | some assistant =>
      let valid := valid_tool_ids db user
      let invalid := req_tool_ids.filter fun tid => !valid.contains tid
      if invalid.isEmpty then
        let new_ids := req_tool_ids.filter fun tid => !assistant.tool_ids.contains tid
        let updated := { assistant with tool_ids := assistant.tool_ids ++ new_ids }
        (saveAssistant db updated, .ok updated.tool_ids)
      else
        (db, .error (.notFound ("Tool(s) not found: " ++ String.intercalate ", " invalid)))

/-- Handler of POST /tool/detach (tool.py lines 240-270): look up the
assistant and filter the requested ids out of its tool_ids list.  The
requested ids themselves are never validated. -/
def detach_tools (db : DB) (user aid : String) (req_tool_ids : List String) :
    DB × Except HTTPError (List String) :=
  match findAssistant db user aid with
  | none => (db, .error (.notFound "Assistant not found"))
  | some assistant =>
      let updated := { assistant with
        tool_ids := assistant.tool_ids.filter fun tid => !req_tool_ids.contains tid }
      (saveAssistant db updated, .ok updated.tool_ids)

/-- Concrete store used as a test fixture: one cartesia assistant with no
attached tools and one active tool, both owned by u@example.com. -/
def db0 : DB :=
  { assistants := [{ assistant_id := "a1"
                     assistant_name := "A"
                     assistant_tts_model := "cartesia"
                     assistant_tts_voice_id := some "v1"
                     assistant_created_by_email := "u@example.com" }]
    tools := [{ tool_id := "t1"
                tool_name := "lookup_weather"
                tool_description := "d"
                tool_execution_type := "webhook"
                tool_created_by_email := "u@example.com" }]
    trunks := [] }

/-- Claim C3, counterexample: attaching the valid id t1 twice in one request
to an assistant with no tools succeeds and stores the duplicated list
[t1, t1]: the merge deduplicates only against the previously attached ids,
not within the request, so duplicates ARE introduced. -/
theorem attach_duplicate_request_introduces_duplicates :
    (∀ tid ∈ ["t1", "t1"], tid ∈ valid_tool_ids db0 "u@example.com") ∧
    (attach_tools db0 "u@example.com" "a1" ["t1", "t1"]).2 = .ok ["t1", "t1"] ∧
    ((attach_tools db0 "u@example.com" "a1" ["t1", "t1"]).1.assistants.map
        (fun a => a.tool_ids)) = [["t1", "t1"]] ∧
    ¬ (["t1", "t1"] : List String).Nodup := by
  refine ⟨by decide, rfl, rfl, by decide⟩

/-- Claim C3, amended: on an existing active assistant owned by the caller,
a request containing an id that does not resolve to an active owned tool is
rejected with NotFound and leaves the store unchanged; otherwise the ids not
already attached are appended in request order, so the result is the
set-union of the previous list and the supplied ids, and no duplicates are
introduced provided the supplied ids are pairwise distinct (an id repeated
within one request is appended once per occurrence). -/
theorem attach_tools_union_spec (db : DB) (user aid : String)
    (req : List String) (a : Assistant)
    (hfind : findAssistant db user aid = some a) :
    ((∃ tid ∈ req, tid ∉ valid_tool_ids db user) →
        (attach_tools db user aid req).1 = db ∧
        ∃ d, (attach_tools db user aid req).2 = .error (.notFound d)) ∧
    ((∀ tid ∈ req, tid ∈ valid_tool_ids db user) →
        ∃ newList,
          attach_tools db user aid req =
            (saveAssistant db { a with tool_ids := newList }, .ok newList) ∧
          newList = a.tool_ids ++ (req.filter fun tid => !a.tool_ids.contains tid) ∧
          (∀ x, x ∈ newList ↔ x ∈ a.tool_ids ∨ x ∈ req) ∧
          (a.tool_ids.Nodup → req.Nodup → newList.Nodup)) := by
  constructor
  · rintro ⟨tid, htid, hbad⟩
    have hcond : ¬ ∀ x ∈ req, x ∈ valid_tool_ids db user := fun hc => hbad (hc tid htid)
    constructor
    · simp [attach_tools, hfind, hcond]
    · refine ⟨"Tool(s) not found: " ++
          String.intercalate ", " (req.filter fun tid => !(valid_tool_ids db user).contains tid), ?_⟩
      simp [attach_tools, hfind, hcond]
  · intro hall
    refine ⟨a.tool_ids ++ (req.filter fun tid => !a.tool_ids.contains tid),
        ?_, rfl, ?_, ?_⟩
    · simp only [attach_tools, hfind]
      rw [if_pos]
      simpa using hall
    · intro x
      constructor
      · intro hx
        rcases List.mem_append.mp hx with hx | hx
        · exact Or.inl hx
        · exact Or.inr (List.mem_of_mem_filter hx)
      · intro hx
        by_cases hin : x ∈ a.tool_ids
        · exact List.mem_append.mpr (Or.inl hin)
        · rcases hx with hx | hx
          · exact absurd hx hin
          · refine List.mem_append.mpr (Or.inr ?_)
            refine List.mem_filter.mpr ⟨hx, ?_⟩
            simpa using hin
    · intro hnd hreq
      refine List.Nodup.append hnd (hreq.filter _) ?_
      intro x hx hx2
      have := List.mem_filter.mp hx2
      simp at this
      exact this.2 hx

/-- Claim C3, witness for the amended theorem: attaching the single valid id
t1 to the fixture assistant stores the list [t1]. -/
theorem attach_tools_union_witness :
    ∃ newList,
      attach_tools db0 "u@example.com" "a1" ["t1"] =
        (saveAssistant db0 { (db0.assistants.get ⟨0, by decide⟩) with tool_ids := newList },
         .ok newList) ∧
      newList = (db0.assistants.get ⟨0, by decide⟩).tool_ids ++
        (["t1"].filter fun tid => !(db0.assistants.get ⟨0, by decide⟩).tool_ids.contains tid) ∧
      (∀ x, x ∈ newList ↔ x ∈ (db0.assistants.get ⟨0, by decide⟩).tool_ids ∨ x ∈ ["t1"]) ∧
      ((db0.assistants.get ⟨0, by decide⟩).tool_ids.Nodup → (["t1"] : List String).Nodup →
          newList.Nodup) :=
  (attach_tools_union_spec db0 "u@example.com" "a1" ["t1"]
      (db0.assistants.get ⟨0, by decide⟩) (by decide)).2 (by decide)

/-- Claim C4, counterexample: a detach request carrying the id bogus, which
resolves to no tool at all, is not rejected: the handler succeeds and
returns the unchanged (empty) tool_ids list, because detach_tools never
validates the supplied ids. -/
theorem detach_invalid_id_not_rejected :
    ("bogus" ∉ valid_tool_ids db0 "u@example.com") ∧
    (detach_tools db0 "u@example.com" "a1" ["bogus"]).2 = .ok [] ∧
    (detach_tools db0 "u@example.com" "a1" ["bogus"]).1 = saveAssistant db0
      { (db0.assistants.get ⟨0, by decide⟩) with tool_ids := [] } := by
  refine ⟨by decide, rfl, rfl⟩

/-- Claim C4, amended: on an existing active assistant owned by the caller a
detach request always succeeds, whether or not the supplied ids resolve to
active owned tools, and the resulting tool_ids list is the set-difference of
the previous list and the supplied ids; only a missing assistant yields
NotFound. -/
theorem detach_tools_difference_spec (db : DB) (user aid : String)
    (req : List String) (a : Assistant)
    (hfind : findAssistant db user aid = some a) :
    detach_tools db user aid req =
      (saveAssistant db { a with tool_ids := a.tool_ids.filter fun tid => !req.contains tid },
       .ok (a.tool_ids.filter fun tid => !req.contains tid)) ∧
    (∀ x, x ∈ (a.tool_ids.filter fun tid => !req.contains tid) ↔
        x ∈ a.tool_ids ∧ x ∉ req) := by
  refine ⟨by simp [detach_tools, hfind], ?_⟩
  intro x
  rw [List.mem_filter]
  simp

/-- Claim C4, witness for the amended theorem at the concrete fixture. -/
theorem detach_tools_difference_witness :
    detach_tools db0 "u@example.com" "a1" ["bogus"] =
      (saveAssistant db0 { (db0.assistants.get ⟨0, by decide⟩) with
          tool_ids := (db0.assistants.get ⟨0, by decide⟩).tool_ids.filter
            fun tid => !(["bogus"] : List String).contains tid },
       .ok ((db0.assistants.get ⟨0, by decide⟩).tool_ids.filter
            fun tid => !(["bogus"] : List String).contains tid)) ∧
    (∀ x, x ∈ ((db0.assistants.get ⟨0, by decide⟩).tool_ids.filter
            fun tid => !(["bogus"] : List String).contains tid) ↔
        x ∈ (db0.assistants.get ⟨0, by decide⟩).tool_ids ∧ x ∉ (["bogus"] : List String)) :=
  detach_tools_difference_spec db0 "u@example.com" "a1" ["bogus"]
    (db0.assistants.get ⟨0, by decide⟩) (by decide)

/-- Reference sweep applied by delete_tool to each assistant document
(tool.py lines 169-176): the caller's assistants whose tool_ids array
contains the deleted id get that id filtered out and are saved; every other
document is untouched. -/
def sweepAssistant (user tid : String) (a : Assistant) : Assistant :=
  if a.assistant_created_by_email == user && a.tool_ids.contains tid then
    { a with tool_ids := a.tool_ids.filter fun x => x ≠ tid }
  else a

/-- Handler of DELETE /tool/delete (tool.py lines 148-183): look up the
active owned tool, mark it inactive and save it (soft delete), then sweep
the caller's assistants. -/
def delete_tool (db : DB) (user tid : String) : DB × Except HTTPError String :=
  match findTool db user tid with
  | none => (db, .error (.notFound "Tool not found"))
  | some tool =>
      let tool2 := { tool with tool_is_active := false }
      let db1 := saveTool db tool2
      let db2 := { db1 with assistants := db1.assistants.map (sweepAssistant user tid) }
      (db2, .ok tid)

/-- Claim C5: a successful tool deletion soft-deletes the tool document in
place (same number of stored tools, the document now inactive) and rewrites
the assistants collection pointwise: a caller-owned assistant loses exactly
the deleted id from its tool_ids (all other ids kept), an assistant of
another owner — or one not referencing the id — is unchanged. -/
theorem delete_tool_sweep_spec (db : DB) (user tid : String) (t : Tool)
    (hfind : findTool db user tid = some t) :
    ∃ db2, delete_tool db user tid = (db2, .ok tid) ∧
      db2.tools = db.tools.map
        (fun x => if x.tool_id = t.tool_id then { t with tool_is_active := false } else x) ∧
      db2.tools.length = db.tools.length ∧
      (∃ x ∈ db2.tools, x.tool_id = tid ∧ x.tool_is_active = false) ∧
      db2.assistants = db.assistants.map (sweepAssistant user tid) ∧
      (∀ a : Assistant,
        (a.assistant_created_by_email = user →
            tid ∉ (sweepAssistant user tid a).tool_ids ∧
            ∀ x, x ≠ tid → (x ∈ (sweepAssistant user tid a).tool_ids ↔ x ∈ a.tool_ids)) ∧
        (a.assistant_created_by_email ≠ user → sweepAssistant user tid a = a) ∧
        (tid ∉ a.tool_ids → sweepAssistant user tid a = a)) := by
  have hmem : t ∈ db.tools := by
    have := List.find?_some hfind
    exact List.mem_of_find?_eq_some hfind
  have hid : t.tool_id = tid := by
    have hp := List.find?_some hfind
    simp only [Bool.and_eq_true, beq_iff_eq] at hp
    exact hp.1.1
  refine ⟨(delete_tool db user tid).1, ?_, ?_, ?_, ?_, ?_, ?_⟩
  · simp [delete_tool, hfind]
  · simp [delete_tool, hfind, saveTool]
  · simp [delete_tool, hfind, saveTool]
  · refine ⟨{ t with tool_is_active := false }, ?_, hid, rfl⟩
    simp only [delete_tool, hfind, saveTool]
    exact List.mem_map.mpr ⟨t, hmem, by simp⟩
  · simp [delete_tool, hfind, saveTool]
  · intro a
    by_cases hown : a.assistant_created_by_email = user
    · by_cases hc : tid ∈ a.tool_ids
      · refine ⟨fun _ => ⟨?_, ?_⟩, fun h => absurd hown h, fun h => absurd hc h⟩
        · simp [sweepAssistant, hown, hc, List.mem_filter]
        · intro x hx
          simp [sweepAssistant, hown, hc, List.mem_filter, hx]
      · have heq : sweepAssistant user tid a = a := by
          simp [sweepAssistant, hc]
        refine ⟨fun _ => ⟨?_, fun x _ => ?_⟩, fun h => absurd hown h, fun _ => heq⟩
        · rw [heq]; exact hc
        · rw [heq]
    · have heq : sweepAssistant user tid a = a := by
        simp [sweepAssistant, hown]
      exact ⟨fun h => absurd h hown, fun _ => heq, fun _ => heq⟩

/-- Concrete store used to witness the deletion sweep: the tool t1 is
attached to the caller's assistant a1, to the caller's assistant a2 that
does not reference it, and to another owner's assistant b1. -/
def db1 : DB :=
  { assistants := [{ assistant_id := "a1"
                     assistant_name := "A"
                     assistant_tts_model := "cartesia"
                     assistant_tts_voice_id := some "v1"
                     assistant_created_by_email := "u@example.com"
                     tool_ids := ["t1", "t2"] },
                   { assistant_id := "a2"
                     assistant_name := "B"
                     assistant_tts_model := "cartesia"
                     assistant_tts_voice_id := some "v2"
                     assistant_created_by_email := "u@example.com"
                     tool_ids := ["t2"] },
                   { assistant_id := "b1"
                     assistant_name := "C"
                     assistant_tts_model := "cartesia"
                     assistant_tts_voice_id := some "v3"
                     assistant_created_by_email := "w@example.com"
                     tool_ids := ["t1"] }]
    tools := [{ tool_id := "t1"
                tool_name := "lookup_weather"
                tool_description := "d"
                tool_execution_type := "webhook"
                tool_created_by_email := "u@example.com" },
              { tool_id := "t2"
                tool_name := "send_sms"
                tool_description := "d"
                tool_execution_type := "static_return"
                tool_created_by_email := "u@example.com" }]
    trunks := [] }

/-- Claim C5, witness: deleting t1 from the db1 fixture. -/
theorem delete_tool_sweep_witness :
    ∃ db2, delete_tool db1 "u@example.com" "t1" = (db2, .ok "t1") ∧
      db2.tools = db1.tools.map
        (fun x => if x.tool_id = (db1.tools.get ⟨0, by decide⟩).tool_id then
            { (db1.tools.get ⟨0, by decide⟩) with tool_is_active := false } else x) ∧
      db2.tools.length = db1.tools.length ∧
      (∃ x ∈ db2.tools, x.tool_id = "t1" ∧ x.tool_is_active = false) ∧
      db2.assistants = db1.assistants.map (sweepAssistant "u@example.com" "t1") ∧
      (∀ a : Assistant,
        (a.assistant_created_by_email = "u@example.com" →
            "t1" ∉ (sweepAssistant "u@example.com" "t1" a).tool_ids ∧
            ∀ x, x ≠ "t1" →
              (x ∈ (sweepAssistant "u@example.com" "t1" a).tool_ids ↔ x ∈ a.tool_ids)) ∧
        (a.assistant_created_by_email ≠ "u@example.com" →
            sweepAssistant "u@example.com" "t1" a = a) ∧
        ("t1" ∉ a.tool_ids → sweepAssistant "u@example.com" "t1" a = a)) :=
  delete_tool_sweep_spec db1 "u@example.com" "t1" (db1.tools.get ⟨0, by decide⟩) (by decide)

/-- Allow-listed projection returned by GET /assistant/list
(assistant.py lines 95-103). -/
structure AssistantSummary where
  assistant_id : String
  assistant_name : String
  assistant_tts_model : String
  assistant_created_by_email : String
deriving DecidableEq, Repr

/-- Allow-listed projection returned by GET /tool/list (tool.py lines
108-117); the created_at timestamp is omitted from the model. -/
structure ToolSummary where
  tool_id : String
  tool_name : String
  tool_description : String
  tool_execution_type : String
deriving DecidableEq, Repr

/-- Allow-listed projection returned by GET /sip/list (sip.py lines 83-90). -/
structure TrunkSummary where
  trunk_id : String
  trunk_name : String
  trunk_created_by_email : String
deriving DecidableEq, Repr

/-- Projection of one assistant document into its list entry. -/
def assistantSummary (a : Assistant) : AssistantSummary :=
  ⟨a.assistant_id, a.assistant_name, a.assistant_tts_model, a.assistant_created_by_email⟩

/-- Projection of one tool document into its list entry. -/
def toolSummary (t : Tool) : ToolSummary :=
  ⟨t.tool_id, t.tool_name, t.tool_description, t.tool_execution_type⟩

/-- Projection of one trunk document into its list entry. -/
def trunkSummary (t : OutboundSIP) : TrunkSummary :=
  ⟨t.trunk_id, t.trunk_name, t.trunk_created_by_email⟩

/-- Handler of GET /assistant/list (assistant.py lines 83-109): only the
caller's active assistants are fetched and projected. -/
def list_assistants (db : DB) (user : String) : List AssistantSummary :=
  (db.assistants.filter fun a =>
      a.assistant_created_by_email == user && a.assistant_is_active).map assistantSummary

/-- Handler of GET /tool/list (tool.py lines 99-123). -/
def list_tools (db : DB) (user : String) : List ToolSummary :=
  (db.tools.filter fun t =>
      t.tool_created_by_email == user && t.tool_is_active).map toolSummary

/-- Handler of GET /sip/list (sip.py lines 72-94). -/
def list_sip_trunks (db : DB) (user : String) : List TrunkSummary :=
  (db.trunks.filter fun t =>
      t.trunk_created_by_email == user && t.trunk_is_active).map trunkSummary

/-- Claim C6: every entry of each of the three list responses is the
projection of a stored record created by the authenticated caller and still
active; no other owner's record and no inactive record contributes an
entry. -/
theorem list_endpoints_owner_active_only (db : DB) (user : String) :
    (∀ s ∈ list_assistants db user, ∃ a ∈ db.assistants,
        a.assistant_created_by_email = user ∧ a.assistant_is_active = true ∧
        s = assistantSummary a) ∧
    (∀ s ∈ list_tools db user, ∃ t ∈ db.tools,
        t.tool_created_by_email = user ∧ t.tool_is_active = true ∧
        s = toolSummary t) ∧
    (∀ s ∈ list_sip_trunks db user, ∃ t ∈ db.trunks,
        t.trunk_created_by_email = user ∧ t.trunk_is_active = true ∧
        s = trunkSummary t) := by
  refine ⟨?_, ?_, ?_⟩ <;> intro s hs
  · rcases List.mem_map.mp hs with ⟨a, ha, rfl⟩
    rcases List.mem_filter.mp ha with ⟨hmem, hcond⟩
    simp only [Bool.and_eq_true, beq_iff_eq] at hcond
    exact ⟨a, hmem, hcond.1, hcond.2, rfl⟩
  · rcases List.mem_map.mp hs with ⟨t, ht, rfl⟩
    rcases List.mem_filter.mp ht with ⟨hmem, hcond⟩
    simp only [Bool.and_eq_true, beq_iff_eq] at hcond
    exact ⟨t, hmem, hcond.1, hcond.2, rfl⟩
  · rcases List.mem_map.mp hs with ⟨t, ht, rfl⟩
    rcases List.mem_filter.mp ht with ⟨hmem, hcond⟩
    simp only [Bool.and_eq_true, beq_iff_eq] at hcond
    exact ⟨t, hmem, hcond.1, hcond.2, rfl⟩

/-- Claim C6, witness: at the db1 fixture the single assistant entry seen by
u@example.com is backed by an owned active record. -/
theorem list_endpoints_witness :
    ∃ a ∈ db1.assistants,
      a.assistant_created_by_email = "u@example.com" ∧ a.assistant_is_active = true ∧
      assistantSummary (db1.assistants.get ⟨0, by decide⟩) = assistantSummary a :=
  (list_endpoints_owner_active_only db1 "u@example.com").1
    (assistantSummary (db1.assistants.get ⟨0, by decide⟩)) (by decide)

/-- Lowercase hexadecimal digit, the alphabet of python's uuid4().hex. -/
def isLowerHex (c : Char) : Bool :=
  c.isDigit || ('a' ≤ c && c ≤ 'f')

/-- Room name built by LiveKitService.create_room (livekit_svc.py line 47):
the assistant id, an underscore, and the first 8 characters of the uuid4 hex
string. -/
def create_room_name (assistant_id uuid_hex : String) : String :=
  assistant_id ++ "_" ++ String.mk (uuid_hex.toList.take 8)

/-- Assistant-id derivation performed by the worker entrypoint
(session.py line 46): room_name.split with separator underscore and
maxsplit 1, keeping the first piece, i.e. the prefix of the room name up to
the first underscore (the whole name when there is none). -/
def derive_assistant_id (room_name : String) : String :=
  String.mk (room_name.toList.takeWhile fun c => c != '_')

/-- Helper: takeWhile stops exactly at the first failing element. -/
theorem takeWhile_append_of_forall {p : Char → Bool} (xs : List Char)
    (hxs : ∀ x ∈ xs, p x = true) (y : Char) (hy : p y = false) (ys : List Char) :
    (xs ++ y :: ys).takeWhile p = xs := by
  induction xs with
  | nil => simp [List.takeWhile, hy]
  | cons x xs ih =>
      have hx : p x = true := hxs x (by simp)
      simp only [List.cons_append, List.takeWhile, hx]
      exact congrArg (List.cons x) (ih fun z hz => hxs z (by simp [hz]))

/-- Claim C8: when the uuid hex string has at least 8 characters, all
lowercase hex (uuid4().hex is 32 such characters), the produced room name is
the assistant id, an underscore, and an 8-character lowercase-hex suffix;
and when the assistant id itself contains no underscore, the worker's
derivation recovers exactly the assistant id from that room name. -/
theorem room_name_roundtrip (assistant_id uuid_hex : String)
    (hlen : 8 ≤ uuid_hex.toList.length)
    (hhex : ∀ c ∈ uuid_hex.toList, isLowerHex c = true)
    (hid : '_' ∉ assistant_id.toList) :
    (∃ suffix : String,
        create_room_name assistant_id uuid_hex = assistant_id ++ "_" ++ suffix ∧
        suffix.toList.length = 8 ∧
        ∀ c ∈ suffix.toList, isLowerHex c = true) ∧
    derive_assistant_id (create_room_name assistant_id uuid_hex) = assistant_id := by
  constructor
  · refine ⟨String.mk (uuid_hex.toList.take 8), rfl, ?_, ?_⟩
    · simpa using Nat.min_eq_left hlen
    · intro c hc
      exact hhex c (List.mem_of_mem_take (by simpa using hc))
  · cases assistant_id with
    | mk iddata =>
        cases uuid_hex with
        | mk udata =>
            have hlist : (create_room_name ⟨iddata⟩ ⟨udata⟩).toList
                = iddata ++ '_' :: udata.take 8 := by
              simp [create_room_name, String.toList]
            have hall : ∀ x ∈ iddata, (x != '_') = true := by
              intro x hx
              have : x ≠ '_' := fun h => hid (by simpa [String.toList, h] using hx)
              simpa using this
            simp only [derive_assistant_id, hlist]
            rw [takeWhile_append_of_forall iddata hall '_' (by simp) (udata.take 8)]

/-- Claim C8, witness at a concrete assistant id and uuid hex string. -/
theorem room_name_roundtrip_witness :
    (∃ suffix : String,
        create_room_name "abc123" "0f3c2b7d9a145e60f7a8b9c0d1e2f3a4" = "abc123" ++ "_" ++ suffix ∧
        suffix.toList.length = 8 ∧
        ∀ c ∈ suffix.toList, isLowerHex c = true) ∧
    derive_assistant_id (create_room_name "abc123" "0f3c2b7d9a145e60f7a8b9c0d1e2f3a4") = "abc123" :=
  room_name_roundtrip "abc123" "0f3c2b7d9a145e60f7a8b9c0d1e2f3a4"
    (by decide) (by decide) (by decide)

/-- JSON value, the shape of tool arguments, webhook bodies and job
metadata. -/
inductive JsonVal where
  | null : JsonVal
  | bool : Bool → JsonVal
  | num : Int → JsonVal
  | str : String → JsonVal
  | arr : List JsonVal → JsonVal
  | obj : List (String × JsonVal) → JsonVal

/-- Outcome of the single POST a webhook executor performs: the request
timed out, failed for another reason (connection error and the like), or
produced a response with a status code and a body (body given both as the
optional JSON parse and as raw text). -/
inductive HttpOutcome where
  | timeout : HttpOutcome
  | failure : String → HttpOutcome
  | response : Nat → Option JsonVal → String → HttpOutcome

/-- Effective timeout of a webhook executor: config.get with default 30
(tool_builder.py line 148). -/
def webhook_timeout_of (cfg : Option Nat) : Nat :=
  cfg.getD 30

/-- Success predicate of httpx raise_for_status: 2xx statuses succeed, every
other status raises HTTPStatusError. -/
def is2xx (status : Nat) : Bool :=
  200 ≤ status && status < 300

/-- Webhook executor body (tool_builder.py lines 150-178), as a total
function of the network outcome: every raised exception is caught inside
the handler and converted to a structured error object, so the executor
always returns a JSON value and never propagates an exception.  On a 2xx
response the parsed JSON body is returned, falling back to the raw text. -/
def webhook_handler (timeout : Nat) (raw_arguments : List (String × JsonVal))
    (net : HttpOutcome) : JsonVal :=
  match net with
  | .timeout =>
      .obj [("error", .str ("Webhook timed out after " ++ toString timeout ++ "s"))]
  | .failure msg =>
      .obj [("error", .str ("Webhook call failed: " ++ msg))]
  | .response status body text =>
      if is2xx status then
        match body with
        | some j => j
        | none => .str text
      else
        .obj [("error", .str ("Webhook returned status " ++ toString status))]

/-- Claim C9: for every argument dictionary and every network outcome the
webhook executor returns a JSON value (totality of webhook_handler — no
exception crosses the boundary), and the value is exactly: the configured
timeout message on timeout, an error object naming the status on a non-2xx
response, an error object on any other failure, and the response body (JSON
if it parses, raw text otherwise) on a 2xx response. -/
theorem webhook_executor_total_spec (cfg : Option Nat)
    (args : List (String × JsonVal)) (net : HttpOutcome) :
    (net = .timeout →
        webhook_handler (webhook_timeout_of cfg) args net =
          .obj [("error",
            .str ("Webhook timed out after " ++ toString (webhook_timeout_of cfg) ++ "s"))]) ∧
    (∀ msg, net = .failure msg →
        webhook_handler (webhook_timeout_of cfg) args net =
          .obj [("error", .str ("Webhook call failed: " ++ msg))]) ∧
    (∀ status body text, net = .response status body text → is2xx status = false →
        webhook_handler (webhook_timeout_of cfg) args net =
          .obj [("error", .str ("Webhook returned status " ++ toString status))]) ∧
    (∀ status body text, net = .response status body text → is2xx status = true →
        webhook_handler (webhook_timeout_of cfg) args net =
          (match body with | some j => j | none => .str text)) := by
  refine ⟨?_, ?_, ?_, ?_⟩
  · rintro rfl
    rfl
  · rintro msg rfl
    rfl
  · rintro status body text rfl hstat
    simp [webhook_handler, hstat]
  · rintro status body text rfl hstat
    simp [webhook_handler, hstat]

/-- Claim C9, witness: with a configured timeout of 5 seconds a timed-out
webhook call returns the structured timeout payload. -/
theorem webhook_executor_witness :
    webhook_handler (webhook_timeout_of (some 5)) [] .timeout =
      .obj [("error",
        .str ("Webhook timed out after " ++ toString (webhook_timeout_of (some 5)) ++ "s"))] :=
  (webhook_executor_total_spec (some 5) [] .timeout).1 rfl

/-- Python dict assignment d[k] = v on a dict modelled as an association
list with unique keys: replace the value at the first occurrence of k, or
append the pair when k is absent. -/
def dict_set : List (String × JsonVal) → String → JsonVal → List (String × JsonVal)
  | [], k, v => [(k, v)]
  | p :: rest, k, v =>
      if p.1 == k then (k, v) :: rest else p :: dict_set rest k v

/-- Python dict lookup d.get(k). -/
def dict_get (m : List (String × JsonVal)) (k : String) : Option JsonVal :=
  (m.find? fun p => p.1 == k).map fun p => p.2

/-- Job metadata built by trigger_outbound_call (call.py lines 48-49):
start from the caller metadata or an empty dict, then assign the destination
number under the to_number key. -/
def prepare_job_metadata (metadata : Option (List (String × JsonVal)))
    (to_number : String) : List (String × JsonVal) :=
  dict_set (metadata.getD []) "to_number" (.str to_number)

/-- Helper: after dict assignment, looking up the assigned key returns the
assigned value. -/
theorem dict_get_set_same (m : List (String × JsonVal)) (k : String) (v : JsonVal) :
    dict_get (dict_set m k v) k = some v := by
  induction m with
  | nil => simp [dict_set, dict_get, List.find?]
  | cons p rest ih =>
      by_cases hp : p.1 = k
      · simp [dict_set, dict_get, hp, List.find?]
      · have hpb : (p.1 == k) = false := by simpa using hp
        simpa [dict_set, dict_get, hpb, List.find?] using ih

/-- Helper: dict assignment leaves every other key unchanged. -/
theorem dict_get_set_other (m : List (String × JsonVal)) (k k2 : String) (v : JsonVal)
    (hne : k2 ≠ k) :
    dict_get (dict_set m k v) k2 = dict_get m k2 := by
  have hkb : (k == k2) = false := by simpa using fun h => hne h.symm
  induction m with
  | nil => simp [dict_set, dict_get, List.find?, hkb]
  | cons p rest ih =>
      by_cases hp : p.1 = k
      · simp [dict_set, dict_get, hp, List.find?, hkb]
      · have hpb : (p.1 == k) = false := by simpa using hp
        simp only [dict_set, hpb, if_false, Bool.false_eq_true]
        by_cases hp2 : p.1 = k2
        · simp [dict_get, List.find?, hp2]
        · have hp2b : (p.1 == k2) = false := by simpa using hp2
          simpa [dict_get, List.find?, hp2b] using ih

/-- Claim C10: the job metadata handed to agent dispatch maps to_number to
the request's destination number, overwriting any caller-supplied entry
under that key, and maps every other key exactly as the caller-supplied
metadata does (an absent metadata bag acts as the empty dict). -/
theorem job_metadata_to_number_frame (metadata : Option (List (String × JsonVal)))
    (to_number : String) :
    dict_get (prepare_job_metadata metadata to_number) "to_number" = some (.str to_number) ∧
    ∀ k, k ≠ "to_number" →
      dict_get (prepare_job_metadata metadata to_number) k = dict_get (metadata.getD []) k := by
  refine ⟨dict_get_set_same _ _ _, fun k hk => dict_get_set_other _ _ _ _ hk⟩

/-- Claim C10, witness: a metadata bag that already binds to_number and one
other key; the destination overwrites the former and the latter survives. -/
theorem job_metadata_witness :
    dict_get (prepare_job_metadata
        (some [("to_number", .str "111"), ("lead", .str "42")]) "+15550100") "to_number"
      = some (.str "+15550100") ∧
    dict_get (prepare_job_metadata
        (some [("to_number", .str "111"), ("lead", .str "42")]) "+15550100") "lead"
      = dict_get [("to_number", .str "111"), ("lead", .str "42")] "lead" :=
  ⟨(job_metadata_to_number_frame
      (some [("to_number", .str "111"), ("lead", .str "42")]) "+15550100").1,
   (job_metadata_to_number_frame
      (some [("to_number", .str "111"), ("lead", .str "42")]) "+15550100").2
      "lead" (by decide)⟩

/-- Transcript tuple stored in a call record (db_schemas.CallRecord):
speaker, text and a timestamp (modelled as a Nat tick). -/
structure TranscriptEntry where
  speaker : String
  text : String
  timestamp : Nat
deriving DecidableEq, Repr

/-- Stored call record document (db_schemas.CallRecord), restricted to the
fields the claims are about. -/
structure CallRecord where
  room_name : String
  assistant_id : String
  assistant_name : String
  to_number : String
  transcripts : List TranscriptEntry
  started_at : Nat
  ended_at : Option Nat := none
deriving DecidableEq, Repr

/-- Body of LiveKitService.add_transcript (livekit_svc.py lines 112-148):
find the call record for the room and append the tuple, or create the
record on this first turn (with assistant_id, assistant_name, to_number and
started_at) holding the tuple.  datetime.utcnow() is the now argument. -/
def add_transcript (records : List CallRecord)
    (room_name speaker text assistant_id assistant_name to_number : String)
    (now : Nat) : List CallRecord :=
  match records.find? fun r => r.room_name == room_name with
  | some r =>
      let r2 := { r with transcripts := r.transcripts ++ [⟨speaker, text, now⟩] }
      records.map fun x => if x.room_name = r.room_name then r2 else x
  | none =>
      records ++ [{ room_name := room_name
                    assistant_id := assistant_id
                    assistant_name := assistant_name
                    to_number := to_number
                    transcripts := [⟨speaker, text, now⟩]
                    started_at := now }]

/-- Helper: on a room with no call record yet, add_transcript creates the
record with the identifying fields and the single tuple — the behaviour the
spec describes for the first conversational turn. -/
theorem add_transcript_creates_on_first_turn (records : List CallRecord)
    (room_name speaker text assistant_id assistant_name to_number : String) (now : Nat)
    (hnew : (records.find? fun r => r.room_name == room_name) = none) :
    add_transcript records room_name speaker text assistant_id assistant_name to_number now =
      records ++ [{ room_name := room_name
                    assistant_id := assistant_id
                    assistant_name := assistant_name
                    to_number := to_number
                    transcripts := [⟨speaker, text, now⟩]
                    started_at := now }] := by
  simp [add_transcript, hnew]

/-- Helper: on a room that already has a call record, add_transcript appends
the tuple to that record's transcript list and touches nothing else. -/
theorem add_transcript_appends_on_later_turn (records : List CallRecord)
    (room_name speaker text assistant_id assistant_name to_number : String) (now : Nat)
    (r : CallRecord)
    (hfound : (records.find? fun r => r.room_name == room_name) = some r) :
    add_transcript records room_name speaker text assistant_id assistant_name to_number now =
      records.map fun x => if x.room_name = r.room_name then
        { r with transcripts := r.transcripts ++ [⟨speaker, text, now⟩] } else x := by
  simp [add_transcript, hfound]

/-- Keyword parameters accepted by LiveKitService.add_transcript
(livekit_svc.py lines 112-120). -/
def add_transcript_params : List String :=
  ["room_name", "speaker", "text", "assistant_id", "assistant_name", "to_number"]

/-- Keyword arguments passed at the call site inside the
conversation_item_added handler on_conversation_item (session.py lines
163-173). -/
def on_conversation_item_call_kwargs : List String :=
  ["room_name", "speaker", "text", "assistant_id", "assistant_name", "to_number",
   "recording_path"]

/-- Python call semantics for keyword arguments: a call is accepted only if
every supplied keyword names a declared parameter; otherwise the call raises
TypeError (unexpected keyword argument) before the function body runs. -/
def python_kwargs_accepted (params kwargs : List String) : Bool :=
  kwargs.all fun k => params.contains k

/-- Claim C1, failing evaluation: the transcript handler's call does not
match add_transcript's signature — it passes the extra keyword
recording_path — so in every live session the conversation_item_added
handler raises TypeError instead of running add_transcript, and no
transcript tuple is ever appended to (nor any CallRecord created for) the
session's room, contradicting the claim and the spec; the intended append
and lazy-create behaviour is implemented in add_transcript itself (see the
two helper lemmas above), making the call-site mismatch a slip in the
code. -/
theorem transcript_call_site_rejects :
    python_kwargs_accepted add_transcript_params on_conversation_item_call_kwargs = false ∧
    "recording_path" ∈ on_conversation_item_call_kwargs ∧
    "recording_path" ∉ add_transcript_params := by
  refine ⟨by decide, by decide, by decide⟩

end ApiLivekit
